import Mathlib

/-!
Shallow embedding of the dinit-chimera device availability monitor
(src/early/helpers/devmon.cc) and its client (src/early/helpers/devclient.cc).

The C++ `std::unordered_map` tables are modelled as association lists with
the same operation semantics (`emplace` does not overwrite, `operator[]`
followed by assignment does, `erase` drops the key, `find` returns the
first binding).  Devices are the `device` struct of the source; the global
index tables live in `MonState`.  Bytes are `Nat` (values kept below 256 by
construction of the inputs).  Filesystem symlink resolution (lstat +
realpath in `check_devnode`) is abstracted as a function
`String → Option String`.
-/

namespace Devmon

/-- `std::unordered_map::find`, on an association-list model. -/
def alookup {α : Type} [BEq α] {β : Type} : List (α × β) → α → Option β
  | [], _ => none
  | (k, v) :: r, q => if k == q then some v else alookup r q

/-- Key membership test for the association-list maps. -/
def acontains {α : Type} [BEq α] {β : Type} (m : List (α × β)) (k : α) : Bool :=
  (alookup m k).isSome

/-- `std::unordered_map::emplace`: inserts only when the key is absent. -/
def aemplace {α : Type} [BEq α] {β : Type} (m : List (α × β)) (k : α) (v : β) :
    List (α × β) :=
  if acontains m k then m else m ++ [(k, v)]

/-- `map[k] = v`: insert-or-overwrite. -/
def aupdate {α : Type} [BEq α] {β : Type} : List (α × β) → α → β → List (α × β)
  | [], k, v => [(k, v)]
  | (k', v') :: r, k, v =>
    if k' == k then (k, v) :: r else (k', v') :: aupdate r k v

/-- `std::unordered_map::erase` by key. -/
def aerase {α : Type} [BEq α] {β : Type} (m : List (α × β)) (k : α) :
    List (α × β) :=
  m.filter (fun p => !(p.1 == k))

/-- `std::unordered_set::emplace` on a list-as-set. -/
def sinsert {α : Type} [BEq α] (s : List α) (x : α) : List α :=
  if s.contains x then s else s ++ [x]

/-- `std::unordered_set::erase` on a list-as-set. -/
def serase {α : Type} [BEq α] (s : List α) (x : α) : List α :=
  s.filter (fun y => !(y == x))

/-- The five subscriber query kinds (DEVICE_SYS .. DEVICE_USB in the source). -/
inductive DevType where
  | dev
  | sys
  | netif
  | mac
  | usb
deriving DecidableEq, Repr

/-- One byte pushed to the matching subscribers: `write_gen`/`write_dev`
records the kind matched, the status byte and the key the fan-out compares
subscriber queries against. -/
structure Emission where
  dtype : DevType
  status : Nat
  key : String
deriving DecidableEq, Repr

/-- The `device` struct of devmon.cc.  `dsvcset`/`psvcset`/`nsvcset` are the
service-name sets (dependencies being dropped / being added / queued next);
the dinit handle and `pending_svcs` counter are part of the asynchronous
plumbing and are not needed by the state model. -/
structure device where
  name : String := ""
  mac : String := ""
  syspath : String := ""
  subsys : String := ""
  devset : List Nat := []
  dsvcset : List String := []
  psvcset : List String := []
  nsvcset : List String := []
  removed : Bool := false
  processing : Bool := false
  removal : Bool := false
  pending : Bool := false
  has_tag : Bool := false
deriving DecidableEq, Repr

/-- The global tables of devmon.cc: the canonical syspath-keyed device
table and the secondary indices (device node, interface name, MAC address,
USB device number → vendor:product key). -/
structure MonState where
  map_sys : List (String × device) := []
  map_dev : List (String × String) := []
  map_netif : List (String × String) := []
  map_mac : List (String × String) := []
  map_usb : List (Nat × String) := []
deriving DecidableEq, Repr

/-- `device::init_dev`: record the device node and index it. -/
def init_dev (st : MonState) (d : device) (node : Option String) :
    MonState × device :=
  let d := match node with | some n => { d with name := n } | none => d
  match node with
  | some _ => ({ st with map_dev := aemplace st.map_dev d.name d.syspath }, d)
  | none => (st, d)

/-- `device::init_net`: record interface name and MAC and index both. -/
def init_net (st : MonState) (d : device) (ifname macaddr : Option String) :
    MonState × device :=
  let d := match ifname with | some n => { d with name := n } | none => d
  let d := match macaddr with | some m => { d with mac := m } | none => d
  let st := match ifname with
    | some _ => { st with map_netif := aemplace st.map_netif d.name d.syspath }
    | none => st
  let st := match macaddr with
    | some _ => { st with map_mac := aemplace st.map_mac d.mac d.syspath }
    | none => st
  (st, d)

/-- `device::set_dev`: on a device-node change, notify absence of the old
node, reindex under the new one. -/
def set_dev (st : MonState) (d : device) (devnode : Option String) :
    MonState × device × List Emission :=
  let same := match devnode with
    | some n => d.name == n
    | none => d.name == ""
  if same then (st, d, [])
  else
    let ems := [{ dtype := DevType.dev, status := 0, key := d.name : Emission }]
    let st := { st with map_dev := aerase st.map_dev d.name }
    match devnode with
    | some n =>
      let d := { d with name := n }
      ({ st with map_dev := aemplace st.map_dev d.name d.syspath }, d, ems)
    | none => (st, { d with name := "" }, ems)

/-- `device::set_ifname`: on an interface-name change, notify absence of
the old name, reindex under the new one. -/
def set_ifname (st : MonState) (d : device) (ifname : Option String) :
    MonState × device × List Emission :=
  let same := match ifname with
    | some n => d.name == n
    | none => d.name == ""
  if same then (st, d, [])
  else
    let ems := [{ dtype := DevType.netif, status := 0, key := d.name : Emission }]
    let st := { st with map_netif := aerase st.map_netif d.name }
    match ifname with
    | some n =>
      let d := { d with name := n }
      ({ st with map_netif := aemplace st.map_netif d.name d.syspath }, d, ems)
    | none => (st, { d with name := "" }, ems)

/-- `device::set_mac`: on a MAC change, notify absence of the old MAC and
erase it; the re-insertion into `map_mac` is keyed by `name`, exactly as in
the source (devmon.cc line `map_mac.emplace(name, syspath)`). -/
def set_mac (st : MonState) (d : device) (nmac : Option String) :
    MonState × device × List Emission :=
  let same := match nmac with
    | some m => d.mac == m
    | none => d.mac == ""
  if same then (st, d, [])
  else
    let ems := [{ dtype := DevType.mac, status := 0, key := d.mac : Emission }]
    let st := { st with map_mac := aerase st.map_mac d.mac }
    match nmac with
    | some m =>
      let d := { d with mac := m }
      ({ st with map_mac := aemplace st.map_mac d.name d.syspath }, d, ems)
    | none => (st, { d with mac := "" }, ems)

/-- `device::ready`: the presence bytes fanned out for this device. -/
def device.ready (d : device) (status : Nat) : List Emission :=
  if d.subsys == "usb" then
    [{ dtype := DevType.usb, status := status, key := d.syspath }]
  else
    [{ dtype := DevType.sys, status := status, key := d.syspath : Emission }] ++
    (if d.subsys == "net" then
      (if d.name != "" then
        [{ dtype := DevType.netif, status := status, key := d.name : Emission }]
      else []) ++
      (if d.mac != "" then
        [{ dtype := DevType.mac, status := status, key := d.mac : Emission }]
      else [])
    else
      (if d.name != "" then
        [{ dtype := DevType.dev, status := status, key := d.name : Emission }]
      else []))

/-- `device::remove`: drop the index entries of a removed device.  For the
net branch the source erases `map_netif` under `name`, clears `name`, and
then erases `map_mac` under `name` again (not under `mac`); the model keeps
that sequencing. -/
def device.remove (st : MonState) (d : device) : MonState × device :=
  if d.subsys == "net" then
    let p1 :=
      if d.name != "" then
        ({ st with map_netif := aerase st.map_netif d.name }, { d with name := "" })
      else (st, d)
    let st := p1.1
    let d := p1.2
    if d.mac != "" then
      ({ st with map_mac := aerase st.map_mac d.name }, { d with mac := "" })
    else (st, d)
  else
    if d.name != "" then
      ({ st with map_dev := aerase st.map_dev d.name }, { d with name := "" })
    else (st, d)

/-- `device::process`: signal readiness for the event just finished, shift
the dependency sets, and either go idle or start the next reconciliation.
The returned Bool is true when a new `device@` load was issued (a new
reconciliation is now in flight). -/
def device.process (d : device) : device × List Emission × Bool :=
  let ems := device.ready d (if d.removal then 0 else 1)
  let d := { d with dsvcset := d.psvcset, psvcset := d.nsvcset, nsvcset := [] }
  if !d.pending then ({ d with processing := false }, ems, false)
  else
    ({ d with pending := false, removal := d.removed, processing := true },
     ems, true)

/-- The `std::isspace` characters consumed by the DINIT_WAITS_FOR parser. -/
def is_space_char (c : Char) : Bool :=
  c == ' ' || c == '\t' || c == '\n' || c == '\r' ||
  c == Char.ofNat 11 || c == Char.ofNat 12

/-- The token scan of `handle_device_dinit`: maximal non-space runs. -/
def svc_tokens (s : String) : List String :=
  (s.split is_space_char).filter (fun t => t != "")

/-- Parsing DINIT_WAITS_FOR into the `nsvcset` set (duplicates collapse, as
with `unordered_set::emplace`). -/
def parse_waits_for (s : String) : List String :=
  (svc_tokens s).foldl (fun acc t => sinsert acc t) []

/-- `handle_device_dinit`: untagged devices publish presence directly;
tagged devices queue the parsed dependency set into `nsvcset`, mark
`pending`, and start `device::process` only when no reconciliation is in
flight.  `tagged` is `udev_device_has_tag(dev, "dinit")`; `waits_for` the
DINIT_WAITS_FOR property. -/
def handle_device_dinit (d : device) (tagged : Bool)
    (waits_for : Option String) : device × List Emission × Bool :=
  let d := if !d.has_tag then { d with has_tag := tagged } else d
  if !d.has_tag then
    (d, device.ready d (if d.removed then 0 else 1), false)
  else
    let svcs := if d.removed then "" else waits_for.getD ""
    let d := { d with nsvcset := parse_waits_for svcs, pending := true }
    if !d.processing then device.process d
    else (d, [], false)

/-- The fields of a `struct udev_device *` the monitor reads. -/
structure udev_dev where
  syspath : String := ""
  subsystem : String := ""
  devnode : Option String := none
  sysname : Option String := none
  address : Option String := none
  idVendor : Option String := none
  idProduct : Option String := none
  devnum : Nat := 0
  tagged : Bool := false
  waits_for : Option String := none
deriving DecidableEq, Repr

/-- `device::init`. -/
def device.init (st : MonState) (d : device) (u : udev_dev) (devnum : Nat) :
    MonState × device :=
  let r :=
    if devnum != 0 then (st, { d with devset := sinsert d.devset devnum })
    else if d.subsys != "net" then init_dev st d u.devnode
    else init_net st d u.sysname u.address
  (r.1, { r.2 with removed := false })

/-- `device::set`. -/
def device.set (st : MonState) (d : device) (u : udev_dev) (devnum : Nat) :
    MonState × device × List Emission :=
  if devnum != 0 then
    (st, { d with devset := sinsert d.devset devnum, removed := false }, [])
  else if d.subsys != "net" then
    let r := set_dev st d u.devnode
    (r.1, { r.2.1 with removed := false }, r.2.2)
  else
    let r1 := set_ifname st d u.sysname
    let r2 := set_mac r1.1 r1.2.1 u.address
    (r2.1, { r2.2.1 with removed := false }, r1.2.2 ++ r2.2.2)

/-- The `map_sys[sysp]` path of `add_device`: reuse an existing (removed)
record or default-construct one, then initialise and register it. -/
def add_device_new (st : MonState) (u : udev_dev) (sysp : String)
    (devnum : Nat) (old : Option device) : MonState × List Emission :=
  let d0 := match old with | some od => od | none => ({} : device)
  let d0 := { d0 with syspath := sysp, subsys := u.subsystem }
  let r := device.init st d0 u devnum
  let st := { r.1 with map_sys := aupdate r.1.map_sys sysp r.2 }
  let st := if devnum != 0 then
      { st with map_usb := aupdate st.map_usb devnum sysp }
    else st
  let h := handle_device_dinit r.2 u.tagged u.waits_for
  ({ st with map_sys := aupdate st.map_sys sysp h.1 }, h.2.1)

/-- `add_device`: create-or-update on an `add`/`change` event.  USB devices
are keyed by `"vendor:product"` and require both id attributes. -/
def add_device (st : MonState) (u : udev_dev) : MonState × List Emission :=
  let info : Option (String × Nat) :=
    if u.subsystem == "usb" then
      match u.idVendor, u.idProduct with
      | some v, some p => some (v ++ ":" ++ p, u.devnum)
      | _, _ => none
    else some (u.syspath, 0)
  match info with
  | none => (st, [])
  | some (sysp, devnum) =>
    match alookup st.map_sys sysp with
    | some od =>
      if !od.removed then
        let r := device.set st od u devnum
        let st := { r.1 with map_sys := aupdate r.1.map_sys sysp r.2.1 }
        let h := handle_device_dinit r.2.1 u.tagged u.waits_for
        ({ st with map_sys := aupdate st.map_sys sysp h.1 }, r.2.2 ++ h.2.1)
      else add_device_new st u sysp devnum (some od)
    | none => add_device_new st u sysp devnum none

/-- `remove_device`: a USB device number is first dropped from its owning
aggregate; only when the aggregate's `devset` empties (or for non-USB
devices directly) is the device marked removed and deindexed. -/
def remove_device (st : MonState) (u : udev_dev) : MonState × List Emission :=
  let pre : MonState × String × Bool :=
    if u.devnum ≠ 0 then
      match alookup st.map_usb u.devnum with
      | some msp =>
        match alookup st.map_sys msp with
        | some d =>
          let d := { d with devset := serase d.devset u.devnum }
          let st := { st with
            map_sys := aupdate st.map_sys msp d,
            map_usb := aerase st.map_usb u.devnum }
          if d.devset ≠ [] then (st, msp, true) else (st, msp, false)
        | none => (st, msp, true)
      | none => (st, u.syspath, false)
    else (st, u.syspath, false)
  let st := pre.1
  let sysp := pre.2.1
  if pre.2.2 then (st, [])
  else
    match alookup st.map_sys sysp with
    | none => (st, [])
    | some d =>
      if d.removed then (st, [])
      else
        let d := { d with removed := true }
        let h := handle_device_dinit d u.tagged u.waits_for
        let st := { st with map_sys := aupdate st.map_sys sysp h.1 }
        let r := device.remove st h.1
        ({ r.1 with map_sys := aupdate r.1.map_sys sysp r.2 }, h.2.1)

/-! Concrete net-device scenario used for the index-consistency claims:
one net interface is observed, then its MAC changes, or it is removed. -/

/-- `add` event for a net interface eth0. -/
def uAddEth0 : udev_dev :=
  { syspath := "/sys/class/net/eth0", subsystem := "net",
    sysname := some "eth0", address := some "aa:bb:cc:dd:ee:ff" }

/-- State after observing the add of eth0. -/
def stNetAdded : MonState := (add_device {} uAddEth0).1

/-- `remove` event for eth0. -/
def uRemEth0 : udev_dev := { syspath := "/sys/class/net/eth0", subsystem := "net" }

/-- State after observing the removal of eth0. -/
def stNetRemoved : MonState := (remove_device stNetAdded uRemEth0).1

/-- `change` event for eth0 carrying a new MAC address. -/
def uChgMac : udev_dev :=
  { syspath := "/sys/class/net/eth0", subsystem := "net",
    sysname := some "eth0", address := some "11:22:33:44:55:66" }

/-- State and emissions after the MAC-change event. -/
def rChgMac : MonState × List Emission := add_device stNetAdded uChgMac

/-- The dinitctl requests issued during one reconciliation step.  `loadSvc`
is `dinitctl_load_service_async` (with its reload flag), `rmDep`/`addDep`
the `dinitctl_add_remove_service_dependency_async` call for the edge
`device@syspath --waits-for--> svc`, `wake` the wake request. -/
inductive DinitOp where
  | loadSvc (name : String) (reload : Bool)
  | rmDep (svc : String)
  | addDep (svc : String)
  | wake (svc : String)
deriving DecidableEq, Repr

/-- Requests issued for one service of `dsvcset` (`dinit_subsvc_load_del_cb`
chain): load with reload, then — when the load succeeds — remove the edge;
a removal never wakes.  `loadOk` abstracts the supervisor's load result. -/
def subsvc_del_ops (loadOk : Bool) (s : String) : List DinitOp :=
  DinitOp.loadSvc s true :: (if loadOk then [DinitOp.rmDep s] else [])

/-- Requests issued for one service of `psvcset` (`dinit_subsvc_load_add_cb`
chain): load, then — when the load succeeds — add the edge, then wake the
service unless it is already started. -/
def subsvc_add_ops (loadOk started : Bool) (s : String) : List DinitOp :=
  DinitOp.loadSvc s false ::
    (if loadOk then
      DinitOp.addDep s :: (if started then [] else [DinitOp.wake s])
    else [])

/-- `dinit_devsvc_add_cb`: the requests eventually issued once the anchor
edge completed — the removal chain for every member of `dsvcset`, the
addition chain for every member of `psvcset`.  `oracle s` gives the
supervisor's (load-succeeded, already-started) answer for service `s`. -/
def devsvc_add_cb_ops (oracle : String → Bool × Bool)
    (dsvc psvc : List String) : List DinitOp :=
  (dsvc.flatMap fun s => subsvc_del_ops (oracle s).1 s) ++
  (psvc.flatMap fun s => subsvc_add_ops (oracle s).1 (oracle s).2 s)

/-- The requests of the reconciliation step started by `device::process`:
after the set shuffle, `dsvcset` holds the previous current set and
`psvcset` the new pending set, and both are walked in full. -/
def reconcile_step_ops (oracle : String → Bool × Bool) (d : device) :
    List DinitOp :=
  let r := device.process d
  if r.2.2 then devsvc_add_cb_ops oracle r.1.dsvcset r.1.psvcset else []

/-- A device whose current dependency set and queued next set are both
`{a}`, with a reconciliation due. -/
def dRecBoth : device := { psvcset := ["a"], nsvcset := ["a"], pending := true }

/-- Supervisor oracle: every load succeeds on an already-started service. -/
def oracleAll : String → Bool × Bool := fun _ => (true, true)

/-! ### Subscriber protocol (control-socket side of `main`) -/

/-- The bytes `strcmp` inspects of the NUL-terminated type string starting
at `handshake[1]`. -/
def take_until_zero : List Nat → List Nat
  | [] => []
  | c :: r => if c == 0 then [] else c :: take_until_zero r

/-- Raw bytes to the string they spell (payloads are ASCII). -/
def bytes_to_string (l : List Nat) : String := String.mk (l.map Char.ofNat)

/-- Parsing the requested type out of a full 8-byte handshake frame:
the NUL-terminated string at offset 1 must be one of the five kinds. -/
def parse_kind (hs : List Nat) : Option DevType :=
  let k := bytes_to_string (take_until_zero (hs.drop 1))
  if k == "dev" then some DevType.dev
  else if k == "sys" then some DevType.sys
  else if k == "netif" then some DevType.netif
  else if k == "mac" then some DevType.mac
  else if k == "usb" then some DevType.usb
  else none

/-- `check_devnode(node, nullptr, &syspath)`: look the node up in the
device-node index, else resolve it as an on-disk symlink (`fs`, modelling
lstat + realpath) and look the target up. -/
def check_devnode (fs : String → Option String) (st : MonState)
    (node : String) : Option String :=
  match alookup st.map_dev node with
  | some sp => some sp
  | none =>
    match fs node with
    | some respath => alookup st.map_dev respath
    | none => none

/-- The query-resolution switch of the subscriber handler: which syspath a
(kind, query) pair denotes, if any. -/
def resolve_query (fs : String → Option String) (st : MonState)
    (t : DevType) (q : String) : Option String :=
  match t with
  | DevType.dev => check_devnode fs st q
  | DevType.sys => if acontains st.map_sys q then some q else none
  | DevType.usb => if acontains st.map_sys q then some q else none
  | DevType.netif => alookup st.map_netif q
  | DevType.mac => alookup st.map_mac q

/-- The `igot` computation: 1 when the query resolves, then downgraded to 0
when the resolved device is removed or mid-reconciliation.  `none` models
the `map_sys.at` lookup throwing (no device under the resolved syspath) —
unreachable for states built by the monitor, which never erases `map_sys`
entries. -/
def initial_status (fs : String → Option String) (st : MonState)
    (t : DevType) (q : String) : Option Nat :=
  match resolve_query fs st t q with
  | none => some 0
  | some sp =>
    match alookup st.map_sys sp with
    | some d => some (if d.removed || d.processing then 0 else 1)
    | none => none

/-- The `conn` record of devmon.cc.  `handshake = []` models the
`!handshake[0]` "header not yet received" test. -/
structure conn where
  handshake : List Nat := []
  devtype : Option DevType := none
  datalen : Nat := 0
  datastr : String := ""
deriving DecidableEq, Repr

/-- Result of one POLLIN service of a subscriber fd: the connection is
dropped (`reject` = the `bad_msg` path: close + erase), the process dies on
an out-of-range `map_sys.at` (`crash`), or the connection survives with the
response bytes written this iteration and the bytes left unread in the
socket buffer. -/
inductive StepRes where
  | reject
  | crash
  | keep (cn : conn) (wrote : List Nat) (rest : List Nat)
deriving DecidableEq, Repr

/-- One POLLIN service of a subscriber connection, transcribed from the
connection-handling block of `main`.  `buf` is the data currently readable:
a `read` of n bytes returns `min n buf.length` bytes, and running dry
mid-payload is the EAGAIN break. -/
def conn_step (fs : String → Option String) (st : MonState) (cn : conn)
    (buf : List Nat) : StepRes :=
  if cn.datalen ≠ 0 ∧ cn.datastr.length = cn.datalen then StepRes.reject
  else if cn.handshake = [] then
    let got := buf.take 8
    if got.length ≠ 8 then StepRes.reject
    else if got.head? ≠ some 0xdd ∨ got.getLast? ≠ some 0 then
      StepRes.reject
    else
      match parse_kind got with
      | none => StepRes.reject
      | some t =>
        StepRes.keep { cn with handshake := got, devtype := some t } []
          (buf.drop 8)
  else
    let stage : Option (conn × List Nat) :=
      if cn.datalen = 0 then
        match buf with
        | b0 :: b1 :: rest =>
          let len := b0 + 256 * b1
          if len = 0 then none else some ({ cn with datalen := len }, rest)
        | _ => none
      else some (cn, buf)
    match stage with
    | none => StepRes.reject
    | some (cn, buf) =>
      if cn.datastr.length ≥ cn.datalen then StepRes.reject
      else
        let need := cn.datalen - cn.datastr.length
        let cn := { cn with datastr := cn.datastr ++ bytes_to_string (buf.take need) }
        match cn.devtype with
        | none => StepRes.reject
        | some t =>
          match initial_status fs st t cn.datastr with
          | some b => StepRes.keep cn [b] (buf.drop need)
          | none => StepRes.crash

/-- Outcome of a sequence of POLLIN services: total response bytes written
along the way, and whether the connection was dropped, crashed the server,
or is still alive. -/
inductive RunRes where
  | rejected (writes : Nat)
  | crashed (writes : Nat)
  | alive (cn : conn) (rest : List Nat) (writes : Nat)
deriving DecidableEq, Repr

/-- Drive one connection through successive poll iterations; each element
of `chunks` is the data newly arrived before that iteration (joined with
whatever was left unread). -/
def conn_run (fs : String → Option String) (st : MonState) :
    conn → List Nat → List (List Nat) → RunRes
  | cn, rest, [] => RunRes.alive cn rest 0
  | cn, rest, chunk :: more =>
    match conn_step fs st cn (rest ++ chunk) with
    | StepRes.reject => RunRes.rejected 0
    | StepRes.crash => RunRes.crashed 0
    | StepRes.keep cn' wrote rest' =>
      match conn_run fs st cn' rest' more with
      | RunRes.rejected w => RunRes.rejected (wrote.length + w)
      | RunRes.crashed w => RunRes.crashed (wrote.length + w)
      | RunRes.alive c r w => RunRes.alive c r (wrote.length + w)

/-- `check_devnode(node, devn)`, the fan-out variant: does the subscriber's
query `node` denote the device node `devn`, either directly or after
resolving `node` as an on-disk symlink? -/
def check_devnode_match (fs : String → Option String) (node devn : String) :
    Bool :=
  if node == devn then true
  else match fs node with
    | some respath => respath == devn
    | none => false

/-- `write_gen`: the connection records a generic fan-out byte is written
to — those whose devtype and current `datastr` match, with no check that
the handshake payload is complete. -/
def write_gen_targets (cns : List conn) (devt : DevType) (name : String) :
    List conn :=
  cns.filter (fun cn => !(cn.devtype != some devt || cn.datastr != name))

/-- `write_dev`: the connection records a device-node fan-out byte is
written to — dev-kind connections whose current `datastr` equals the node
or resolves to it, again with no payload-completeness check. -/
def write_dev_targets (fs : String → Option String) (cns : List conn)
    (name : String) : List conn :=
  cns.filter (fun cn =>
    cn.devtype == some DevType.dev && check_devnode_match fs cn.datastr name)

/-- A connection mid-payload: header done for kind dev, declared length 9,
but only the 8 bytes "/dev/sda" received so far. -/
def cnPartialSda : conn :=
  { handshake := [0xdd, 100, 101, 118, 0, 0, 0, 0],
    devtype := some DevType.dev, datalen := 9, datastr := "/dev/sda" }

/-- The filesystem with no symlinks (no `/dev` aliasing in play). -/
def fsNone : String → Option String := fun _ => none

/-- The empty monitor state. -/
def stEmpty : MonState := {}

/-- The fresh connection created on accept. -/
def cnFresh : conn := {}

/-- The 16-bit little-endian length at the head of a buffer (the two bytes
`read` copies into `datalen`); 0 when fewer than two bytes are readable. -/
def len16 : List Nat → Nat
  | b0 :: b1 :: _ => b0 + 256 * b1
  | _ => 0

/-- The closure conditions of the subscriber handler, stated flat: junk
after a complete payload; at the header stage a short read, a wrong magic
byte, a non-zero separator at offset 7, or an unknown kind; at the length
stage a short read, a zero declared length, or a declared length not
exceeding the bytes already held; past the length stage more payload bytes
held than declared. -/
def reject_cond (cn : conn) (buf : List Nat) : Prop :=
  (cn.datalen ≠ 0 ∧ cn.datastr.length = cn.datalen) ∨
  (¬(cn.datalen ≠ 0 ∧ cn.datastr.length = cn.datalen) ∧
    ((cn.handshake = [] ∧
       (buf.length < 8 ∨ (buf.take 8).head? ≠ some 0xdd ∨
        (buf.take 8).getLast? ≠ some 0 ∨ parse_kind (buf.take 8) = none)) ∨
     (cn.handshake ≠ [] ∧ cn.datalen = 0 ∧
       (buf.length < 2 ∨ len16 buf = 0 ∨ len16 buf ≤ cn.datastr.length)) ∨
     (cn.handshake ≠ [] ∧ cn.datalen ≠ 0 ∧ cn.datalen < cn.datastr.length)))

/-- A connection that has completed the header stage for kind `dev`. -/
def cnHdrDev : conn :=
  { handshake := [0xdd, 100, 101, 118, 0, 0, 0, 0],
    devtype := some DevType.dev }

/-- A device table holding one removed tty device under syspath "s". -/
def stOneRemoved : MonState :=
  { map_sys := [("s", { syspath := "s", subsys := "tty", removed := true })] }

/-- The removed device sitting in `stOneRemoved`. -/
def dOneRemoved : device := { syspath := "s", subsys := "tty", removed := true }

/-- A tagged device with a reconciliation in flight and an older current
dependency set, used to witness the coalescing theorem. -/
def dInFlight : device :=
  { syspath := "/sys/devices/x", subsys := "tty", psvcset := ["a"],
    processing := true, has_tag := true }

/-! ### USB aggregation scenario -/

/-- First kernel device (devnum 5) of a 046d:c52b USB receiver. -/
def uUsb1 : udev_dev :=
  { syspath := "/sys/bus/usb/devices/1-1", subsystem := "usb",
    idVendor := some "046d", idProduct := some "c52b", devnum := 5 }

/-- Second kernel device (devnum 6) aliasing to the same 046d:c52b entry. -/
def uUsb2 : udev_dev :=
  { syspath := "/sys/bus/usb/devices/1-1.1", subsystem := "usb",
    idVendor := some "046d", idProduct := some "c52b", devnum := 6 }

/-- State with both kernel devices observed: one aggregate record keyed by
"046d:c52b" with devset {5, 6}. -/
def stUsb : MonState := (add_device (add_device {} uUsb1).1 uUsb2).1

/-- The aggregate record sitting in `stUsb`. -/
def dUsb : device :=
  { syspath := "046d:c52b", subsys := "usb", devset := [5, 6] }

/-- Removal event for the first kernel device. -/
def uRemUsb1 : udev_dev :=
  { syspath := "/sys/bus/usb/devices/1-1", subsystem := "usb", devnum := 5 }

/-- State after the first kernel device was removed: the aggregate is still
live with devset {6}. -/
def stUsbOne : MonState := (remove_device stUsb uRemUsb1).1

/-- The aggregate record sitting in `stUsbOne`. -/
def dUsbOne : device :=
  { syspath := "046d:c52b", subsys := "usb", devset := [6] }

/-- Removal event for the second (last) kernel device. -/
def uRemUsb2 : udev_dev :=
  { syspath := "/sys/bus/usb/devices/1-1.1", subsystem := "usb", devnum := 6 }

/-! ### Client program (devclient.cc) -/

/-- Relevant errno values (Linux). -/
def EINTR : Nat := 4

/-- errno: no such file or directory. -/
def ENOENT : Nat := 2

/-- errno: not a directory. -/
def ENOTDIR : Nat := 20

/-- errno: connection refused. -/
def ECONNREFUSED : Nat := 111

/-- What one iteration of the client's connect loop does next. -/
inductive ConnectAct where
  | connected
  | retryAfter (ms : Nat)
  | failHard
deriving DecidableEq, Repr

/-- One iteration of the connect loop of devclient.cc: `none` is a
successful connect; EINTR restarts the loop immediately (`continue` skips
the nanosleep); ENOENT, ENOTDIR and ECONNREFUSED fall through to the
250 ms nanosleep before retrying; anything else is `err(1, ...)`. -/
def connect_attempt (res : Option Nat) : ConnectAct :=
  match res with
  | none => ConnectAct.connected
  | some e =>
    if e = EINTR then ConnectAct.retryAfter 0
    else if e = ENOENT ∨ e = ENOTDIR ∨ e = ECONNREFUSED then
      ConnectAct.retryAfter 250
    else ConnectAct.failHard

/-- One iteration of the client's response-reading loop, on the readiness
fd state: returns (new fd state, readiness written now, loop exited).
A nonzero byte with the readiness fd still open writes `READY=1` and
closes the fd (fd state becomes -1); a zero byte after readiness breaks
the loop (the client then returns 0); anything else is ignored. -/
def client_read_step (fdnum : Int) (c : Nat) : Int × Bool × Bool :=
  if c ≠ 0 ∧ fdnum ≥ 0 then (-1, true, false)
  else if c = 0 ∧ fdnum < 0 then (fdnum, false, true)
  else (fdnum, false, false)

/-- The client's response-reading loop over a stream of received bytes:
(total readiness writes, exited with status 0).  Bytes after the exit are
never read. -/
def client_read_run : Int → List Nat → Nat × Bool
  | _, [] => (0, false)
  | fdnum, c :: rest =>
    let s := client_read_step fdnum c
    if s.2.2 then (0, true)
    else
      let r := client_read_run s.1 rest
      (if s.2.1 then r.1 + 1 else r.1, r.2)

/-! ### Theorems -/

/-- C1: the index-consistency invariant fails on the code.  After observing
the add of a net interface (eth0, MAC aa:bb:cc:dd:ee:ff) and then its
removal, the netif index entry is dropped but the MAC index still maps the
old MAC to the device's syspath, while the device's removed flag is true:
`device::remove` erases `map_mac` under `name`, which was cleared on the
statement before, so the MAC entry is never dropped.  The claimed invariant
(every index entry refers to a non-removed device; removing a net device
drops both its netif and its MAC entry) is therefore violated at this
input. -/
theorem c1_mac_index_survives_removal :
    alookup stNetRemoved.map_netif "eth0" = none ∧
    alookup stNetRemoved.map_mac "aa:bb:cc:dd:ee:ff" =
      some "/sys/class/net/eth0" ∧
    (alookup stNetRemoved.map_sys "/sys/class/net/eth0").map device.removed =
      some true := by
  decide

/-- C2: the MAC-change path fails on the code.  When eth0's MAC changes
from aa:bb:cc:dd:ee:ff to 11:22:33:44:55:66 via a change event, the monitor
does emit the transition-to-absent for the old MAC and erases the old MAC
from the MAC index, but it re-inserts the device keyed by the interface
name ("eth0"), not by the new MAC: the new MAC is absent from the index. -/
theorem c2_mac_reindex_keyed_by_name :
    ({ dtype := DevType.mac, status := 0, key := "aa:bb:cc:dd:ee:ff" : Emission }
       ∈ rChgMac.2) ∧
    alookup rChgMac.1.map_mac "aa:bb:cc:dd:ee:ff" = none ∧
    alookup rChgMac.1.map_mac "11:22:33:44:55:66" = none ∧
    alookup rChgMac.1.map_mac "eth0" = some "/sys/class/net/eth0" := by
  decide

/-- C3 counterexample: the claim that services present in both the previous
current set and the new pending set have no edge operation issued for them
is false.  For a device whose current set and queued set are both `{a}`,
the reconciliation step issues both the dependency-removal and the
dependency-addition for `a`. -/
theorem c3_counterexample_edge_ops_for_common_service :
    "a" ∈ dRecBoth.psvcset ∧ "a" ∈ dRecBoth.nsvcset ∧
    DinitOp.rmDep "a" ∈ reconcile_step_ops oracleAll dRecBoth ∧
    DinitOp.addDep "a" ∈ reconcile_step_ops oracleAll dRecBoth := by
  decide

/-- C3 (amended): in one reconciliation step the removal chain (load with
reload, then remove edge when the load succeeded) is issued for every
service of the previous current set, and the addition chain (load, add
edge, wake unless already started) for every service of the new pending
set — with no set difference taken, so services in both sets receive both
chains. -/
theorem c3_reconcile_ops_characterization (oracle : String → Bool × Bool)
    (dsvc psvc : List String) (s : String) :
    (DinitOp.loadSvc s true ∈ devsvc_add_cb_ops oracle dsvc psvc ↔ s ∈ dsvc) ∧
    (DinitOp.rmDep s ∈ devsvc_add_cb_ops oracle dsvc psvc ↔
      s ∈ dsvc ∧ (oracle s).1 = true) ∧
    (DinitOp.loadSvc s false ∈ devsvc_add_cb_ops oracle dsvc psvc ↔ s ∈ psvc) ∧
    (DinitOp.addDep s ∈ devsvc_add_cb_ops oracle dsvc psvc ↔
      s ∈ psvc ∧ (oracle s).1 = true) ∧
    (DinitOp.wake s ∈ devsvc_add_cb_ops oracle dsvc psvc ↔
      s ∈ psvc ∧ (oracle s).1 = true ∧ (oracle s).2 = false) := by
  have hdel : ∀ (b : Bool) (x : String) (o : DinitOp),
      o ∈ subsvc_del_ops b x ↔
        o = DinitOp.loadSvc x true ∨ (b = true ∧ o = DinitOp.rmDep x) := by
    intro b x o
    cases b <;> simp [subsvc_del_ops]
  have hadd : ∀ (b st : Bool) (x : String) (o : DinitOp),
      o ∈ subsvc_add_ops b st x ↔
        o = DinitOp.loadSvc x false ∨ (b = true ∧ o = DinitOp.addDep x) ∨
        (b = true ∧ st = false ∧ o = DinitOp.wake x) := by
    intro b st x o
    cases b <;> cases st <;> simp [subsvc_add_ops]
  refine ⟨?_, ?_, ?_, ?_, ?_⟩ <;>
    simp only [devsvc_add_cb_ops, List.mem_append, List.mem_flatMap, hdel, hadd] <;>
    constructor
  · rintro (⟨x, hx, h | ⟨_, h⟩⟩ | ⟨x, hx, h | h | h⟩) <;> simp_all
  · intro h
    exact Or.inl ⟨s, h, Or.inl rfl⟩
  · rintro (⟨x, hx, h | ⟨hb, h⟩⟩ | ⟨x, hx, h | h | h⟩) <;> simp_all
  · rintro ⟨h, hb⟩
    exact Or.inl ⟨s, h, Or.inr ⟨hb, rfl⟩⟩
  · rintro (⟨x, hx, h | ⟨_, h⟩⟩ | ⟨x, hx, h | h | h⟩) <;> simp_all
  · intro h
    exact Or.inr ⟨s, h, Or.inl rfl⟩
  · rintro (⟨x, hx, h | ⟨_, h⟩⟩ | ⟨x, hx, h | h | h⟩) <;> simp_all
  · rintro ⟨h, hb⟩
    exact Or.inr ⟨s, h, Or.inr (Or.inl ⟨hb, rfl⟩)⟩
  · rintro (⟨x, hx, h | ⟨_, h⟩⟩ | ⟨x, hx, h | h | h⟩) <;> simp_all
  · rintro ⟨h, hb, hst⟩
    exact Or.inr ⟨s, h, Or.inr (Or.inr ⟨hb, hst, rfl⟩)⟩

/-- C4: coalescing.  When an event arrives for a tagged device whose
`processing` flag is true, `handle_device_dinit` only replaces the queued
`nsvcset` with the freshly parsed dependency set and sets `pending`; no
emission is produced and no new reconciliation is started.  When the
in-flight reconciliation completes and re-enters `device::process`, the
latest queued set becomes the pending set of the next reconciliation, which
starts with `processing` still true and `pending` cleared — so at most one
reconciliation is in flight and only the latest state is reconciled next. -/
theorem c4_processing_event_coalesces (d : device) (tagged : Bool)
    (wf : Option String) (hp : d.processing = true) (ht : d.has_tag = true) :
    handle_device_dinit d tagged wf =
      ({ d with
          nsvcset := parse_waits_for (if d.removed then "" else wf.getD ""),
          pending := true }, [], false) ∧
    (device.process { d with
        nsvcset := parse_waits_for (if d.removed then "" else wf.getD ""),
        pending := true }).1.psvcset =
      parse_waits_for (if d.removed then "" else wf.getD "") ∧
    (device.process { d with
        nsvcset := parse_waits_for (if d.removed then "" else wf.getD ""),
        pending := true }).1.processing = true ∧
    (device.process { d with
        nsvcset := parse_waits_for (if d.removed then "" else wf.getD ""),
        pending := true }).1.pending = false ∧
    (device.process { d with
        nsvcset := parse_waits_for (if d.removed then "" else wf.getD ""),
        pending := true }).2.2 = true := by
  refine ⟨?_, ?_, ?_, ?_, ?_⟩ <;>
    simp [handle_device_dinit, device.process, hp, ht]

/-- C4 witness: the coalescing theorem applied to a concrete in-flight
device receiving a change event with DINIT_WAITS_FOR "x y". -/
theorem c4_witness :
    handle_device_dinit dInFlight true (some "x y") =
      ({ dInFlight with
          nsvcset := parse_waits_for
            (if dInFlight.removed then "" else (some "x y").getD ""),
          pending := true }, [], false) ∧
    (device.process { dInFlight with
        nsvcset := parse_waits_for
          (if dInFlight.removed then "" else (some "x y").getD ""),
        pending := true }).1.psvcset =
      parse_waits_for (if dInFlight.removed then "" else (some "x y").getD "") ∧
    (device.process { dInFlight with
        nsvcset := parse_waits_for
          (if dInFlight.removed then "" else (some "x y").getD ""),
        pending := true }).1.processing = true ∧
    (device.process { dInFlight with
        nsvcset := parse_waits_for
          (if dInFlight.removed then "" else (some "x y").getD ""),
        pending := true }).1.pending = false ∧
    (device.process { dInFlight with
        nsvcset := parse_waits_for
          (if dInFlight.removed then "" else (some "x y").getD ""),
        pending := true }).2.2 = true :=
  c4_processing_event_coalesces dInFlight true (some "x y") rfl rfl

/-- C5: the initial response byte.  A query that resolves to a device of
the table yields 0 exactly when that device's removed or processing flag is
set and 1 otherwise; a query that resolves to no device yields 0. -/
theorem c5_initial_response (fs : String → Option String) (st : MonState)
    (t : DevType) (q : String) :
    (∀ sp d, resolve_query fs st t q = some sp →
      alookup st.map_sys sp = some d →
      initial_status fs st t q =
        some (if d.removed || d.processing then 0 else 1)) ∧
    (resolve_query fs st t q = none → initial_status fs st t q = some 0) := by
  constructor
  · intro sp d hr hl
    simp [initial_status, hr, hl]
  · intro hr
    simp [initial_status, hr]

/-- C5 witness: on a table holding one removed device under "s", a sys
query for "s" answers 0 (present but removed), and a sys query matching
nothing answers 0. -/
theorem c5_witness :
    initial_status fsNone stOneRemoved DevType.sys "s" = some 0 ∧
    initial_status fsNone stOneRemoved DevType.sys "nope" = some 0 := by
  have h1 := (c5_initial_response fsNone stOneRemoved DevType.sys "s").1
    "s" dOneRemoved (by decide) (by decide)
  have h2 := (c5_initial_response fsNone stOneRemoved DevType.sys "nope").2
    (by decide)
  exact ⟨by simpa using h1, h2⟩

/-- Length of the string spelled by a byte list. -/
theorem bytes_to_string_length (l : List Nat) :
    (bytes_to_string l).length = l.length := by
  unfold bytes_to_string
  simp [String.length]

/-- Prepending the empty string is the identity. -/
theorem string_empty_append (s : String) : "" ++ s = s := by
  cases s
  rfl

/-- A surviving read event at the header stage writes no response byte:
a parsed header is answered with nothing (the response comes with the
payload). -/
theorem conn_step_header_writes_nothing (fs : String → Option String)
    (st : MonState) (cn : conn) (buf : List Nat) (cn' : conn)
    (wrote rest : List Nat) (hh : cn.handshake = [])
    (hEq : conn_step fs st cn buf = StepRes.keep cn' wrote rest) :
    wrote = [] := by
  by_cases hj : cn.datalen ≠ 0 ∧ cn.datastr.length = cn.datalen
  · simp [conn_step, hj] at hEq
  · by_cases hl : buf.length < 8
    · simp [conn_step, hj, hh, hl] at hEq
    · by_cases hm : (buf.take 8).head? ≠ some 0xdd ∨
          (buf.take 8).getLast? ≠ some 0
      · simp [conn_step, hj, hh, hl, hm] at hEq
      · cases hk : parse_kind (buf.take 8) with
        | none => simp [conn_step, hj, hh, hl, hm, hk] at hEq
        | some t =>
          simp [conn_step, hj, hh, hl, hm, hk] at hEq
          tauto

/-- Every read event past the header that the connection survives writes
exactly one response byte, whether or not the payload became complete. -/
theorem conn_step_payload_writes_one (fs : String → Option String)
    (st : MonState) (cn : conn) (buf : List Nat) (cn' : conn)
    (wrote rest : List Nat) (hh : cn.handshake ≠ [])
    (hEq : conn_step fs st cn buf = StepRes.keep cn' wrote rest) :
    wrote.length = 1 := by
  by_cases hj : cn.datalen ≠ 0 ∧ cn.datastr.length = cn.datalen
  · simp [conn_step, hj] at hEq
  · by_cases hd0 : cn.datalen = 0
    · rcases buf with _ | ⟨b0, _ | ⟨b1, rest2⟩⟩
      · simp [conn_step, hj, hh, hd0] at hEq
      · simp [conn_step, hj, hh, hd0] at hEq
      · by_cases hz : b0 + 256 * b1 = 0
        · simp [conn_step, hj, hh, hd0, hz] at hEq
        · by_cases hsz : b0 + 256 * b1 ≤ cn.datastr.length
          · simp [conn_step, hj, hh, hd0, hz, hsz] at hEq
          · cases hdt : cn.devtype with
            | none => simp [conn_step, hj, hh, hd0, hz, hsz, hdt] at hEq
            | some t =>
              cases hres : initial_status fs st t
                  (cn.datastr ++ bytes_to_string
                    (rest2.take (b0 + 256 * b1 - cn.datastr.length))) with
              | none =>
                simp [conn_step, hj, hh, hd0, hz, hsz, hdt, hres] at hEq
              | some b =>
                simp [conn_step, hj, hh, hd0, hz, hsz, hdt, hres] at hEq
                obtain ⟨h1, h2, h3⟩ := hEq
                rw [← h2]
                rfl
    · have hne : ¬(cn.datastr.length = cn.datalen) := fun h => hj ⟨hd0, h⟩
      by_cases hge : cn.datastr.length ≥ cn.datalen
      · simp [conn_step, hj, hh, hd0, hne, hge] at hEq
      · cases hdt : cn.devtype with
        | none => simp [conn_step, hj, hh, hd0, hne, hge, hdt] at hEq
        | some t =>
          cases hres : initial_status fs st t
              (cn.datastr ++ bytes_to_string
                (buf.take (cn.datalen - cn.datastr.length))) with
          | none => simp [conn_step, hj, hh, hd0, hne, hge, hdt, hres] at hEq
          | some b =>
            simp [conn_step, hj, hh, hd0, hne, hge, hdt, hres] at hEq
            obtain ⟨h1, h2, h3⟩ := hEq
            rw [← h2]
            rfl

/-- C8 counterexample: both sentences of the claim fail on the code.
First, a subscriber that completes its handshake is not limited to one
presence byte before any transition byte: with the header in one read
event, the length in the next, and the single payload byte in a third, the
payload loop hits EAGAIN after the length read and the server answers on
the partial payload, then answers again when the payload completes — two
presence bytes for one completed handshake, with no device transition
involved.  Second, a fan-out byte can be delivered to a connection whose
handshake payload is not yet complete: a dev subscriber that declared 9
payload bytes but has delivered only "/dev/sda" (a reachable state, shown
by the run) is matched by `write_dev` for a transition of the device node
"/dev/sda", because the fan-out compares the current payload with no
completeness check. -/
theorem c8_counterexample_presence_and_fanout :
    conn_run fsNone stEmpty cnFresh []
      [[0xdd, 100, 101, 118, 0, 0, 0, 0], [1, 0], [120]] =
      RunRes.alive
        { handshake := [0xdd, 100, 101, 118, 0, 0, 0, 0],
          devtype := some DevType.dev, datalen := 1, datastr := "x" }
        [] 2 ∧
    conn_run fsNone stEmpty cnFresh []
      [[0xdd, 100, 101, 118, 0, 0, 0, 0],
       [9, 0, 47, 100, 101, 118, 47, 115, 100, 97]] =
      RunRes.alive cnPartialSda [] 1 ∧
    cnPartialSda.datastr.length < cnPartialSda.datalen ∧
    cnPartialSda ∈ write_dev_targets fsNone [cnPartialSda] "/dev/sda" := by
  decide

/-- C8 (amended): presence bytes and fan-out of the subscriber handler.
(1) When the declared length and the whole payload are readable in the
same poll iteration, the server writes exactly one presence byte in that
iteration, and any further readable data on the now-complete connection
takes the junk path and closes it — no second byte is ever written to it.
(2) A surviving read event at the header stage writes no byte, and (3)
every surviving read event past the header writes exactly one byte,
computed from the payload received so far — so a payload spanning several
read events yields one presence byte per event.  (4) `write_gen` selects
exactly the connections whose kind and current payload match the
transition key, and (5) `write_dev` exactly the dev connections whose
current payload equals or resolves to the node — in both cases with no
handshake-completeness check, so incomplete connections are matched too. -/
theorem c8_presence_bytes (fs : String → Option String) (st : MonState) :
    (∀ (cn : conn) (t : DevType) (L : Nat) (payload : List Nat) (b : Nat),
      cn.handshake ≠ [] → cn.devtype = some t → cn.datalen = 0 →
      cn.datastr = "" → payload.length = L → L ≠ 0 →
      initial_status fs st t (bytes_to_string payload) = some b →
      conn_step fs st cn (L % 256 :: L / 256 :: payload) =
        StepRes.keep
          { cn with datalen := L, datastr := bytes_to_string payload }
          [b] [] ∧
      ∀ buf2, conn_step fs st
          { cn with datalen := L, datastr := bytes_to_string payload } buf2 =
        StepRes.reject) ∧
    (∀ (cn : conn) (buf : List Nat) (cn' : conn) (wrote rest : List Nat),
      cn.handshake = [] →
      conn_step fs st cn buf = StepRes.keep cn' wrote rest → wrote = []) ∧
    (∀ (cn : conn) (buf : List Nat) (cn' : conn) (wrote rest : List Nat),
      cn.handshake ≠ [] →
      conn_step fs st cn buf = StepRes.keep cn' wrote rest →
      wrote.length = 1) ∧
    (∀ (cns : List conn) (cn : conn) (t : DevType) (name : String),
      cn ∈ write_gen_targets cns t name ↔
        cn ∈ cns ∧ cn.devtype = some t ∧ cn.datastr = name) ∧
    (∀ (cns : List conn) (cn : conn) (name : String),
      cn ∈ write_dev_targets fs cns name ↔
        cn ∈ cns ∧ cn.devtype = some DevType.dev ∧
          check_devnode_match fs cn.datastr name = true) := by
  refine ⟨?_, ?_, ?_, ?_, ?_⟩
  · intro cn t L payload b hh ht hd hs hL hL0 hb
    subst hL
    constructor
    · simp [conn_step, hd, hh, hs, ht, hb, hL0, Nat.mod_add_div,
        string_empty_append, Nat.le_zero, Nat.pos_of_ne_zero]
    · intro buf2
      simp [conn_step, bytes_to_string_length, hL0]
  · intro cn buf cn' wrote rest hh hEq
    exact conn_step_header_writes_nothing fs st cn buf cn' wrote rest hh hEq
  · intro cn buf cn' wrote rest hh hEq
    exact conn_step_payload_writes_one fs st cn buf cn' wrote rest hh hEq
  · intro cns cn t name
    simp [write_gen_targets, List.mem_filter]
  · intro cns cn name
    simp [write_dev_targets, List.mem_filter]

/-- C8 witness: the single-read clause at the concrete header-complete
connection for kind dev, length 1 and payload "x", plus one junk byte
afterwards. -/
theorem c8_witness :
    conn_step fsNone stEmpty cnHdrDev (1 % 256 :: 1 / 256 :: [120]) =
      StepRes.keep
        { cnHdrDev with datalen := 1, datastr := bytes_to_string [120] }
        [0] [] ∧
    conn_step fsNone stEmpty
        { cnHdrDev with datalen := 1, datastr := bytes_to_string [120] } [7] =
      StepRes.reject := by
  have h := (c8_presence_bytes fsNone stEmpty).1 cnHdrDev DevType.dev 1 [120] 0
    (by decide) rfl rfl rfl rfl (by decide) (by decide)
  exact ⟨h.1, h.2 [7]⟩

/-- C7 counterexample: the server also closes connections on inputs that
are none of the claimed deviations.  Four bytes of a perfectly valid
handshake header (magic correct, kind dev under way) arriving alone close
the connection — the same prefix completed to the full 8-byte header is
accepted — because the header read demands all 8 bytes in one call. -/
theorem c7_counterexample_short_read_closes :
    conn_step fsNone stEmpty cnFresh [0xdd, 100, 101, 118] = StepRes.reject ∧
    conn_step fsNone stEmpty cnFresh [0xdd, 100, 101, 118, 0, 0, 0, 0] ≠
      StepRes.reject := by
  decide

/-- C7 (amended): exact characterization of which readable events make the
server drop a connection (on a connection whose fields are consistent:
kind decoded whenever the header is in).  The connection is dropped iff
one of: data after a complete payload; at the header stage a short header
read, a wrong magic byte, a non-zero byte at offset 7, or an unknown kind;
at the length stage a short length read, a zero declared length, or a
declared length not exceeding the held payload; or more payload held than
declared.  In particular a short read of a wholly valid header closes the
connection, beyond the deviations the specification lists; apart from
these (and write failures and peer hangup, outside this model) the server
never drops a connection. -/
theorem c7_close_iff (fs : String → Option String) (st : MonState)
    (cn : conn) (buf : List Nat)
    (hwf : cn.handshake = [] ∨ cn.devtype.isSome = true) :
    conn_step fs st cn buf = StepRes.reject ↔ reject_cond cn buf := by
  by_cases hj : cn.datalen ≠ 0 ∧ cn.datastr.length = cn.datalen
  · simp [conn_step, reject_cond, hj]
  · by_cases hh : cn.handshake = []
    · by_cases hl : buf.length < 8
      · have h8 : (buf.take 8).length ≠ 8 := by
          simp [List.length_take]
          omega
        simp [conn_step, reject_cond, hj, hh, h8, hl]
      · have h8 : ¬((buf.take 8).length ≠ 8) := by
          simp [List.length_take]
          omega
        by_cases hm : (buf.take 8).head? ≠ some 0xdd ∨
            (buf.take 8).getLast? ≠ some 0
        · simp [conn_step, reject_cond, hj, hh, h8, hm, hl]
          tauto
        · cases hk : parse_kind (buf.take 8) with
          | none => simp [conn_step, reject_cond, hj, hh, h8, hm, hk, hl]
          | some t => simp [conn_step, reject_cond, hj, hh, h8, hm, hk, hl]
    · have hdt : ∃ t, cn.devtype = some t := by
        rcases hwf with h | h
        · exact absurd h hh
        · exact Option.isSome_iff_exists.mp h
      rcases hdt with ⟨t, hdt⟩
      by_cases hd0 : cn.datalen = 0
      · match buf with
        | [] => simp [conn_step, reject_cond, hj, hh, hd0, len16]
        | [b0] => simp [conn_step, reject_cond, hj, hh, hd0, len16]
        | b0 :: b1 :: rest =>
          by_cases hz : b0 + 256 * b1 = 0
          · simp [conn_step, reject_cond, hj, hh, hd0, len16, hz]
          · by_cases hsz : b0 + 256 * b1 ≤ cn.datastr.length
            · simp [conn_step, reject_cond, hj, hh, hd0, len16, hz, hsz]
            · cases hres : initial_status fs st t
                  (cn.datastr ++ bytes_to_string
                    (rest.take (b0 + 256 * b1 - cn.datastr.length))) with
              | none =>
                simp [conn_step, reject_cond, hj, hh, hd0, len16, hz, hsz,
                  hdt, hres]
              | some b =>
                simp [conn_step, reject_cond, hj, hh, hd0, len16, hz, hsz,
                  hdt, hres]
      · have hne : cn.datastr.length ≠ cn.datalen := fun h => hj ⟨hd0, h⟩
        by_cases hgt : cn.datalen < cn.datastr.length
        · have hge : cn.datastr.length ≥ cn.datalen := le_of_lt hgt
          simp [conn_step, reject_cond, hj, hh, hd0, hge, hgt]
          tauto
        · have hnge : ¬(cn.datastr.length ≥ cn.datalen) := by omega
          cases hres : initial_status fs st t
              (cn.datastr ++ bytes_to_string
                (buf.take (cn.datalen - cn.datastr.length))) with
          | none =>
            simp [conn_step, reject_cond, hj, hh, hd0, hnge, hdt, hres]
            omega
          | some b =>
            simp [conn_step, reject_cond, hj, hh, hd0, hnge, hdt, hres]
            omega

/-- C7 witness: the characterization applied to a fresh connection whose
first readable event is a single wrong-magic byte: it is dropped. -/
theorem c7_witness :
    conn_step fsNone stEmpty cnFresh [238] = StepRes.reject :=
  (c7_close_iff fsNone stEmpty cnFresh [238] (Or.inl rfl)).mpr
    (by unfold reject_cond; decide)

/-- Looking up the key just stored with `map[k] = v` yields `v`. -/
theorem alookup_aupdate_self {α : Type} [BEq α] [LawfulBEq α] {β : Type}
    (m : List (α × β)) (k : α) (v : β) :
    alookup (aupdate m k v) k = some v := by
  induction m with
  | nil => simp [aupdate, alookup]
  | cons p r ih =>
    obtain ⟨k', v'⟩ := p
    by_cases h : k' == k
    · simp [aupdate, h, alookup]
    · simp [aupdate, h, alookup, ih]

/-- Looking up a key just erased yields nothing. -/
theorem alookup_aerase_self {α : Type} [BEq α] [LawfulBEq α] {β : Type}
    (m : List (α × β)) (k : α) :
    alookup (aerase m k) k = none := by
  induction m with
  | nil => rfl
  | cons p r ih =>
    obtain ⟨k', v'⟩ := p
    by_cases h : k' == k
    · simpa [aerase, List.filter, h] using ih
    · simpa [aerase, List.filter, h, alookup] using ih

/-- An element just erased from a set is no longer in it. -/
theorem not_mem_serase {α : Type} [BEq α] [LawfulBEq α] (s : List α) (x : α) :
    x ∉ serase s x := by
  simp [serase, List.mem_filter]

/-- Removal of a kernel device number that is registered in the USB index
drops that number from the owning record's devset and from the USB index.
If other numbers remain, the record is untouched apart from
the devset (in particular `removed` stays false) and nothing is emitted to
subscribers; only when the last number goes is the record marked removed.
The absent byte for the vendor:product key is then published: immediately
for an untagged device; for a tagged device with no reconciliation in
flight, the removal reconciliation starts at once (`removal` latched true,
`processing` set) and its completion re-entry of `device::process`
publishes the 0; for a tagged device mid-reconciliation, the removal is
queued (`pending` set, `removed` true) and the 0 is published at the
completion of the reconciliation the in-flight one triggers next. -/
theorem usb_registered_devnum_removal (st : MonState) (sp : String) (d : device)
    (u : udev_dev)
    (hn : u.devnum ≠ 0)
    (hu : alookup st.map_usb u.devnum = some sp)
    (hs : alookup st.map_sys sp = some d)
    (hr : d.removed = false)
    (hsp : d.syspath = sp)
    (hss : d.subsys = "usb") :
    alookup (remove_device st u).1.map_usb u.devnum = none ∧
    (∀ d', alookup (remove_device st u).1.map_sys sp = some d' →
      u.devnum ∉ d'.devset) ∧
    (serase d.devset u.devnum ≠ [] →
      alookup (remove_device st u).1.map_sys sp =
        some { d with devset := serase d.devset u.devnum } ∧
      (remove_device st u).2 = []) ∧
    (serase d.devset u.devnum = [] →
      (∀ d', alookup (remove_device st u).1.map_sys sp = some d' →
        d'.removed = true) ∧
      ((d.has_tag || u.tagged) = false →
        { dtype := DevType.usb, status := 0, key := sp : Emission } ∈
          (remove_device st u).2) ∧
      ((d.has_tag || u.tagged) = true → d.processing = false →
        ∀ d', alookup (remove_device st u).1.map_sys sp = some d' →
          d'.processing = true ∧ d'.removal = true ∧
          { dtype := DevType.usb, status := 0, key := sp : Emission } ∈
            (device.process d').2.1) ∧
      ((d.has_tag || u.tagged) = true → d.processing = true →
        (remove_device st u).2 = [] ∧
        ∀ d', alookup (remove_device st u).1.map_sys sp = some d' →
          d'.pending = true ∧ d'.removed = true ∧
          { dtype := DevType.usb, status := 0, key := sp : Emission } ∈
            (device.process (device.process d').1).2.1)) := by
  by_cases he : serase d.devset u.devnum ≠ []
  · have hstep : remove_device st u =
        ({ st with
            map_sys := aupdate st.map_sys sp
              { d with devset := serase d.devset u.devnum },
            map_usb := aerase st.map_usb u.devnum }, []) := by
      simp [remove_device, hn, hu, hs, he]
    refine ⟨?_, ?_, ?_, ?_⟩
    · rw [hstep]
      exact alookup_aerase_self _ _
    · intro d' hd'
      rw [hstep] at hd'
      rw [alookup_aupdate_self] at hd'
      cases hd'
      exact not_mem_serase _ _
    · intro _
      rw [hstep]
      exact ⟨alookup_aupdate_self _ _ _, rfl⟩
    · intro h
      exact absurd h he
  · push_neg at he
    by_cases hht : d.has_tag
    · by_cases hproc : d.processing
      · by_cases hnm : d.name = ""
        · refine ⟨?_, ?_, ?_, ?_⟩ <;>
            simp [remove_device, hn, hu, hs, he, hr, hsp, hss, hht, hproc, hnm,
              handle_device_dinit, device.ready, device.remove, device.process,
              alookup_aupdate_self, alookup_aerase_self]
        · refine ⟨?_, ?_, ?_, ?_⟩ <;>
            simp [remove_device, hn, hu, hs, he, hr, hsp, hss, hht, hproc, hnm,
              handle_device_dinit, device.ready, device.remove, device.process,
              alookup_aupdate_self, alookup_aerase_self]
      · by_cases hnm : d.name = ""
        · refine ⟨?_, ?_, ?_, ?_⟩ <;>
            simp [remove_device, hn, hu, hs, he, hr, hsp, hss, hht, hproc, hnm,
              handle_device_dinit, device.ready, device.remove, device.process,
              alookup_aupdate_self, alookup_aerase_self]
        · refine ⟨?_, ?_, ?_, ?_⟩ <;>
            simp [remove_device, hn, hu, hs, he, hr, hsp, hss, hht, hproc, hnm,
              handle_device_dinit, device.ready, device.remove, device.process,
              alookup_aupdate_self, alookup_aerase_self]
    · by_cases htg : u.tagged
      · by_cases hproc : d.processing
        · by_cases hnm : d.name = ""
          · refine ⟨?_, ?_, ?_, ?_⟩ <;>
              simp [remove_device, hn, hu, hs, he, hr, hsp, hss, hht, htg,
                hproc, hnm, handle_device_dinit, device.ready, device.remove,
                device.process, alookup_aupdate_self, alookup_aerase_self]
          · refine ⟨?_, ?_, ?_, ?_⟩ <;>
              simp [remove_device, hn, hu, hs, he, hr, hsp, hss, hht, htg,
                hproc, hnm, handle_device_dinit, device.ready, device.remove,
                device.process, alookup_aupdate_self, alookup_aerase_self]
        · by_cases hnm : d.name = ""
          · refine ⟨?_, ?_, ?_, ?_⟩ <;>
              simp [remove_device, hn, hu, hs, he, hr, hsp, hss, hht, htg,
                hproc, hnm, handle_device_dinit, device.ready, device.remove,
                device.process, alookup_aupdate_self, alookup_aerase_self]
          · refine ⟨?_, ?_, ?_, ?_⟩ <;>
              simp [remove_device, hn, hu, hs, he, hr, hsp, hss, hht, htg,
                hproc, hnm, handle_device_dinit, device.ready, device.remove,
                device.process, alookup_aupdate_self, alookup_aerase_self]
      · by_cases hnm : d.name = ""
        · refine ⟨?_, ?_, ?_, ?_⟩ <;>
            simp [remove_device, hn, hu, hs, he, hr, hsp, hss, hht, htg, hnm,
              handle_device_dinit, device.ready, device.remove,
              alookup_aupdate_self, alookup_aerase_self]
        · refine ⟨?_, ?_, ?_, ?_⟩ <;>
            simp [remove_device, hn, hu, hs, he, hr, hsp, hss, hht, htg, hnm,
              handle_device_dinit, device.ready, device.remove,
              alookup_aupdate_self, alookup_aerase_self]

/-- The registered-devnum theorem at a concrete state: devnum 5 (the one
the USB index holds) is removed from the two-device 046d:c52b aggregate,
which stays live with devset {6} and emits nothing. -/
theorem usb_registered_devnum_removal_inst :
    alookup (remove_device stUsb uRemUsb1).1.map_usb 5 = none ∧
    alookup (remove_device stUsb uRemUsb1).1.map_sys "046d:c52b" =
      some { dUsb with devset := serase dUsb.devset 5 } ∧
    (remove_device stUsb uRemUsb1).2 = [] := by
  have h := usb_registered_devnum_removal stUsb "046d:c52b" dUsb uRemUsb1
    (by decide) (by decide) (by decide) rfl rfl rfl
  exact ⟨h.1, (h.2.2.1 (by decide)).1, (h.2.2.1 (by decide)).2⟩

/-- C6: the USB-aggregation claim fails on the code.  `add_device` writes
`map_usb[devnum]` only on its new-entry path, so the second kernel device
(devnum 6) aliasing the live 046d:c52b aggregate lands in the record's
devset but never in the USB index.  Removing devnum 5 (the registered one)
leaves the aggregate live with devset {6}; removing devnum 6 then finds
nothing in the USB index and is a complete no-op — in either order —
so the number is not deleted from the devset, the device is never marked
removed, and no absent byte for the vendor:product key is ever published,
although both kernel devices are gone.  The claim (and the USB-aggregation
scenario of the specification) requires the device to be marked removed
and the subscriber to transition to 0x00 after the last removal. -/
theorem c6_usb_last_removal_lost :
    (alookup stUsb.map_sys "046d:c52b").map device.devset = some [5, 6] ∧
    alookup stUsb.map_usb 5 = some "046d:c52b" ∧
    alookup stUsb.map_usb 6 = none ∧
    remove_device stUsbOne uRemUsb2 = (stUsbOne, []) ∧
    remove_device stUsb uRemUsb2 = (stUsb, []) ∧
    (alookup stUsbOne.map_sys "046d:c52b").map device.removed = some false ∧
    (alookup stUsbOne.map_sys "046d:c52b").map device.devset = some [6] := by
  decide

/-- C9 counterexample: an interrupted connect (EINTR) is retried
immediately — the `continue` skips the nanosleep — not after a 250 ms
sleep as claimed for all four transient errors. -/
theorem c9_counterexample_eintr_retries_without_sleep :
    connect_attempt (some EINTR) = ConnectAct.retryAfter 0 ∧
    connect_attempt (some EINTR) ≠ ConnectAct.retryAfter 250 := by
  decide

/-- C9 (amended): the connect-retry policy of the client.  ENOENT, ENOTDIR
and ECONNREFUSED retry after the 250 ms sleep; EINTR retries immediately
with no sleep; every other connect error terminates the client with a
diagnostic (nonzero exit). -/
theorem c9_connect_retry_policy (e : Nat) :
    connect_attempt none = ConnectAct.connected ∧
    ((e = ENOENT ∨ e = ENOTDIR ∨ e = ECONNREFUSED) →
      connect_attempt (some e) = ConnectAct.retryAfter 250) ∧
    (e = EINTR → connect_attempt (some e) = ConnectAct.retryAfter 0) ∧
    ((e ≠ EINTR ∧ e ≠ ENOENT ∧ e ≠ ENOTDIR ∧ e ≠ ECONNREFUSED) →
      connect_attempt (some e) = ConnectAct.failHard) := by
  refine ⟨rfl, ?_, ?_, ?_⟩
  · rintro (h | h | h) <;> subst h <;> decide
  · intro h
    subst h
    decide
  · rintro ⟨h1, h2, h3, h4⟩
    simp only [EINTR] at h1
    simp only [ENOENT] at h2
    simp only [ENOTDIR] at h3
    simp only [ECONNREFUSED] at h4
    simp [connect_attempt, EINTR, ENOENT, ENOTDIR, ECONNREFUSED, h1, h2, h3, h4]

/-- C9 witness: the policy at a refused connect, an interrupted connect,
and a permission error (EACCES = 13). -/
theorem c9_witness :
    connect_attempt (some ECONNREFUSED) = ConnectAct.retryAfter 250 ∧
    connect_attempt (some EINTR) = ConnectAct.retryAfter 0 ∧
    connect_attempt (some 13) = ConnectAct.failHard :=
  ⟨(c9_connect_retry_policy ECONNREFUSED).2.1 (Or.inr (Or.inr rfl)),
   (c9_connect_retry_policy EINTR).2.2.1 rfl,
   (c9_connect_retry_policy 13).2.2.2 (by decide)⟩

/-- Once readiness has been signalled (fd state negative), the loop never
writes again and exits exactly when a zero byte arrives. -/
theorem client_run_after_ready (fd : Int) (hfdn : fd < 0) (bs : List Nat) :
    (client_read_run fd bs).1 = 0 ∧
    ((client_read_run fd bs).2 = true ↔ 0 ∈ bs) := by
  induction bs with
  | nil => simp [client_read_run]
  | cons c rest ih =>
    by_cases hc : c = 0
    · subst hc
      simp [client_read_run, client_read_step, hfdn]
    · have hge : ¬(fd ≥ 0) := by omega
      have hc' : ¬(0 = c) := fun h => hc h.symm
      simpa [client_read_run, client_read_step, hc, hc', hge] using ih

/-- C10: the client's response loop.  With the readiness fd open (fd state
nonnegative): a stream of only zero bytes neither signals readiness nor
exits; once the first nonzero byte (any nonzero value) arrives, readiness
is written exactly once, further nonzero bytes are ignored, and the loop
exits with status 0 exactly when a zero byte follows that first nonzero
byte. -/
theorem c10_client_response_loop (fd0 : Int) (hfd : fd0 ≥ 0) :
    (∀ bs : List Nat, (∀ c ∈ bs, c = 0) →
      client_read_run fd0 bs = (0, false)) ∧
    (∀ zs c rest, (∀ z ∈ zs, z = 0) → c ≠ 0 →
      (client_read_run fd0 (zs ++ c :: rest)).1 = 1 ∧
      ((client_read_run fd0 (zs ++ c :: rest)).2 = true ↔ 0 ∈ rest)) := by
  have hneg : ¬(fd0 < 0) := by omega
  constructor
  · intro bs hz
    induction bs with
    | nil => rfl
    | cons c rest ih =>
      have hc : c = 0 := hz c (List.mem_cons_self c rest)
      subst hc
      have := ih (fun c h => hz c (List.mem_cons_of_mem _ h))
      simp [client_read_run, client_read_step, hfd, hneg, this]
  · intro zs c rest hz hc
    induction zs with
    | nil =>
      have hr := client_run_after_ready (-1) (by omega) rest
      simp [client_read_run, client_read_step, hc, hfd, hr.1, hr.2]
    | cons z zs' ih =>
      have hz0 : z = 0 := hz z (List.mem_cons_self z zs')
      subst hz0
      have := ih (fun z h => hz z (List.mem_cons_of_mem _ h))
      simp [client_read_run, client_read_step, hfd, hneg, this]

/-- C10 witness: with fd 3 and the byte stream 0, 2, 5, 0, 7 the client
signals readiness once (at the 2) and exits on the 0 that follows. -/
theorem c10_witness :
    (client_read_run 3 [0, 2, 5, 0, 7]).1 = 1 ∧
    (client_read_run 3 [0, 2, 5, 0, 7]).2 = true := by
  have h := (c10_client_response_loop 3 (by decide)).2 [0] 2 [5, 0, 7]
    (by decide) (by decide)
  exact ⟨h.1, h.2.mpr (by decide)⟩

end Devmon
